import Mathlib

/-!
Verification of the reference FVM prototype against its specification.

The definitions below are a shallow embedding of the Rust sources:

* `src/fvm/src/machine.rs` — `Machine::execute_message`, `ApplyRet`,
  `CallStack::call_next`, `CallStack::try_create_account_actor`;
* `src/fvm/src/kernel/default.rs` — `DefaultKernel` block and
  invocation-context operations;
* `src/actors/runtime/src/builtin/codes.rs` — built-in actor code identifiers;
* `src/shared/src/sys/mod.rs` — the two-limb syscall token amount.

Components of the repository that are not part of the provided sources
(the state tree, the gas tracker, the block registry, the account actor
constants) are modelled from the specification; each such definition carries
a doc comment starting with `Modelled from the spec:`.

Machine integers are modelled as `Nat` (the Rust code uses unsigned u32/u64
counters and non-negative big integers for balances and fees); truncating
casts are written with explicit `% 2 ^ w` or shifts.  Fallible Rust code
returns `Option` or `Except`; a Rust panic (including the `todo!()`
placeholders of this prototype) is modelled by a dedicated constructor or by
`Option.none`, as documented at each definition.
-/

set_option maxRecDepth 8000

/-! ## Multihashes and content identifiers -/

/-- A multihash value: function code, declared digest size in bytes, digest
bytes.  Mirrors the `multihash` crate value produced by `Code::digest`. -/
structure Multihash where
  code : Nat
  size : Nat
  digest : List Nat
deriving DecidableEq, Repr

/-- `Multihash::truncate(size)`: resizes the digest to `min size self.size`
bytes (a no-op when `size` is at least the current size). -/
def Multihash.truncate (h : Multihash) (n : Nat) : Multihash :=
  { h with size := min n h.size, digest := h.digest.take n }

/-- A v1 content identifier: codec plus multihash (`Cid::new_v1`). -/
structure Cid where
  codec : Nat
  hash : Multihash
deriving DecidableEq, Repr

/-- `Cid::new_v1(codec, hash)`. -/
def Cid.newV1 (codec : Nat) (hash : Multihash) : Cid :=
  { codec := codec, hash := hash }

/-! ## Built-in actor code identifiers (`actors/runtime/src/builtin/codes.rs`) -/

/-- The raw IPLD codec `0x55` used for built-in code identifiers. -/
def IPLD_RAW : Nat := 0x55

/-- Identity multihash (function code 0) of the given bytes: the digest is
the input itself.  Used by `make_builtin` through `Code::Identity.digest`. -/
def identityHash (bz : List Nat) : Multihash :=
  { code := 0, size := bz.length, digest := bz }

/-- `make_builtin(bz)`: v1 content identifier with the raw codec over the
identity hash of the name bytes. -/
def make_builtin (bz : List Nat) : Cid :=
  Cid.newV1 IPLD_RAW (identityHash bz)

/-- The ASCII bytes of the byte literal `b"fil/7/account"`. -/
def accountActorName : List Nat :=
  [102, 105, 108, 47, 55, 47, 97, 99, 99, 111, 117, 110, 116]

/-- `ACCOUNT_ACTOR_CODE_ID`: the built-in account actor code identifier. -/
def ACCOUNT_ACTOR_CODE_ID : Cid := make_builtin accountActorName

/-- `is_account_actor(code)`: true exactly when the code identifier is the
account actor code identifier. -/
def is_account_actor (code : Cid) : Bool :=
  code = ACCOUNT_ACTOR_CODE_ID

/-! ## Syscall token amounts (`shared/src/sys/mod.rs`) -/

namespace Sys

/-- The two-limb syscall token amount: `lo` and `hi` are u64 limbs. -/
structure TokenAmount where
  lo : Nat
  hi : Nat
deriving DecidableEq, Repr

/-- The `From<TokenAmount>` conversion into the big-integer token amount:
`TokenAmount::from(v.hi) << 64 | TokenAmount::from(v.lo)`.  Big integers are
modelled as `Int`; the shift and bitwise or act on the non-negative limbs. -/
def TokenAmount.toEcon (v : TokenAmount) : Int :=
  Int.ofNat ((v.hi <<< 64) ||| v.lo)

/-- The `TryInto<u128>` step of the `TryFrom` conversion: fails outside
`[0, 2 ^ 128)`. -/
def econTryIntoU128 (v : Int) : Option Nat :=
  if 0 ≤ v ∧ v < 2 ^ 128 then some v.toNat else none

/-- The `TryFrom<econ::TokenAmount>` conversion: convert to u128, then split
into `hi = v >> 64` and `lo = v as u64` (truncating cast `% 2 ^ 64`). -/
def TokenAmount.tryFromEcon (v : Int) : Option TokenAmount :=
  (econTryIntoU128 v).map fun u => { hi := u >>> 64, lo := u % 2 ^ 64 }

end Sys

/-! ## Addresses (`fvm_shared::address`) -/

/-- An actor address: numeric ID, BLS key, Secp256k1 key, or actor form.
Key and actor forms carry their payload bytes. -/
inductive Address where
  | id : Nat → Address
  | bls : List Nat → Address
  | secp256k1 : List Nat → Address
  | actorAddr : List Nat → Address
deriving DecidableEq, Repr

/-- The address protocols. -/
inductive Protocol where
  | idProto
  | blsProto
  | secp256k1Proto
  | actorProto
deriving DecidableEq, Repr

/-- `Address::protocol()`. -/
def Address.protocol : Address → Protocol
  | .id _ => .idProto
  | .bls _ => .blsProto
  | .secp256k1 _ => .secp256k1Proto
  | .actorAddr _ => .actorProto

/-- Modelled from the spec: the reserved zero-value BLS signable address
(`Address::is_bls_zero_address` compares against the BLS address whose
48-byte public key payload is all zeros; `fvm_shared::address` is not among
the provided sources). -/
def blsZeroAddress : Address := Address.bls (List.replicate 48 0)

/-- `Address::is_bls_zero_address()`. -/
def Address.is_bls_zero_address (a : Address) : Bool :=
  a = blsZeroAddress

/-! ## Messages, receipts, apply results -/

/-- `METHOD_CONSTRUCTOR` from `fvm_shared`. -/
def METHOD_CONSTRUCTOR : Nat := 1

/-- A chain message (`fvm/src/message.rs` mirrors the shared message type).
Token amounts and gas values are non-negative and modelled as `Nat`. -/
structure Message where
  version : Nat
  «from» : Address
  «to» : Address
  sequence : Nat
  value : Nat
  method_num : Nat
  params : List Nat
  gas_limit : Nat
  gas_fee_cap : Nat
  gas_premium : Nat
deriving DecidableEq, Repr

/-- Exit codes used by the embedded fragment (`fvm_shared::error::ExitCode`). -/
inductive ExitCode where
  | ok
  | sysErrSenderInvalid
  | sysErrSenderStateInvalid
  | sysErrIllegalArgument
  | sysErrOutOfGas
  | sysErrInternal
deriving DecidableEq, Repr

/-- An actor error: fatal flag plus exit code.  The human-readable message
string carried by the Rust value is elided. -/
structure ActorError where
  fatal : Bool
  exit_code : ExitCode
deriving DecidableEq, Repr

/-- A message receipt (`fvm/src/receipt.rs`). -/
structure Receipt where
  exit_code : ExitCode
  return_data : List Nat
  gas_used : Nat
deriving DecidableEq, Repr

/-- Apply message return data (`machine.rs`). -/
structure ApplyRet where
  msg_receipt : Receipt
  act_error : Option ActorError
  penalty : Nat
  miner_tip : Nat
deriving DecidableEq, Repr

/-- `ApplyRet::prevalidation_fail(exit_code, miner_penalty, error)`. -/
def ApplyRet.prevalidation_fail (exit_code : ExitCode) (miner_penalty : Nat)
    (error : Option ActorError) : ApplyRet :=
  { msg_receipt := { exit_code := exit_code, return_data := [], gas_used := 0 }
    act_error := error
    penalty := miner_penalty
    miner_tip := 0 }

/-! ## Block registry and block operations (`kernel/default.rs`) -/

/-- An in-memory block: codec plus payload bytes (`kernel/blocks.rs`). -/
structure Block where
  codec : Nat
  data : List Nat
deriving DecidableEq, Repr

/-- Block handling errors, from the spec error taxonomy: MissingState,
InvalidMultihashSpec, Internal, plus the unregistered-handle error raised by
registry lookup. -/
inductive BlockError where
  | missingState : Cid → BlockError
  | invalidMultihashSpec : Nat → Nat → BlockError
  | unregistered : Nat → BlockError
  | internalErr : BlockError
deriving DecidableEq, Repr

deriving instance DecidableEq for Except

/-- Modelled from the spec: the per-invocation `BlockRegistry`
(`kernel/blocks.rs` is not among the provided sources) — a scratch table of
byte blocks addressed by small integer handles; `put` registers a block
under the next free handle. -/
abbrev BlockRegistry := List Block

/-- Modelled from the spec: `BlockRegistry::put(block)` registers the block
and returns its fresh handle. -/
def BlockRegistry.put (reg : BlockRegistry) (b : Block) : BlockRegistry × Nat :=
  (List.append reg [b], List.length reg)

/-- Modelled from the spec: `BlockRegistry::get(id)` returns the registered
block or an unregistered-handle error. -/
def BlockRegistry.get (reg : BlockRegistry) (id : Nat) : Except BlockError Block :=
  match List.get? reg id with
  | some b => .ok b
  | none => .error (.unregistered id)

/-- The block store, per the spec external interface: `get`/`put` over
content identifiers.  Modelled as an association list, newest entry first. -/
abbrev Blockstore := List (Cid × List Nat)

/-- Block store `put(k, bytes)`. -/
def Blockstore.putBlock (bs : Blockstore) (k : Cid) (data : List Nat) : Blockstore :=
  (k, data) :: bs

/-- Block store `get(k)`. -/
def Blockstore.getBlock (bs : Blockstore) (k : Cid) : Option (List Nat) :=
  match bs with
  | [] => none
  | (k', d) :: rest => if k' = k then some d else Blockstore.getBlock rest k

/-- A multihash function table entry: native digest size in bytes and the
digest function.  Models one variant of `multihash::Code`. -/
structure HashFn where
  size : Nat
  digestBytes : List Nat → List Nat

/-- A multihash code table: `multihash::Code::try_from` returns the hash
function registered for a code, if any.  The table is a parameter of the
embedding; the `multihash` crate is an external dependency. -/
def MultihashTable := Nat → Option HashFn

/-- `Code::digest(data)`: a multihash whose declared size is the native
digest size of the function. -/
def HashFn.digest (f : HashFn) (code : Nat) (data : List Nat) : Multihash :=
  { code := code, size := f.size, digest := (f.digestBytes data).take f.size }

/-- `DefaultKernel::block_create(codec, data)`: registers the bytes, no IO. -/
def block_create (reg : BlockRegistry) (codec : Nat) (data : List Nat) :
    BlockRegistry × Nat :=
  reg.put { codec := codec, data := data }

/-- `DefaultKernel::block_link(id, hash_fun, hash_len)`: looks the block up,
resolves the multihash function (unknown code fails InvalidMultihashSpec),
digests the block bytes, rejects `hash_len` larger than the native digest
size (InvalidMultihashSpec), builds the v1 content identifier from the block
codec and the digest truncated to `hash_len` (the Rust code casts `hash_len`
to u8, hence `% 256`), and writes the block bytes to the block store under
that identifier. -/
def block_link (mh : MultihashTable) (bs : Blockstore) (reg : BlockRegistry)
    (id hash_fun hash_len : Nat) : Except BlockError (Cid × Blockstore) :=
  match reg.get id with
  | .error e => .error e
  | .ok block =>
    match mh hash_fun with
    | none => .error (.invalidMultihashSpec hash_fun hash_len)
    | some f =>
      let hash := f.digest hash_fun block.data
      if hash.size < hash_len then
        .error (.invalidMultihashSpec hash_fun hash_len)
      else
        let k := Cid.newV1 block.codec (hash.truncate (hash_len % 256))
        .ok (k, bs.putBlock k block.data)

/-- `DefaultKernel::block_read(id, offset, buf)`.  The buffer is represented
by its length; the result counts the copied bytes.  The outer `Option` models
Rust panics: the code computes `len = min buf.len data.len` ignoring the
offset, so the slice `data[offset..][..len]` panics when `len` exceeds
`data.len - offset`, and `copy_from_slice` panics when `buf.len ≠ len`. -/
def block_read (reg : BlockRegistry) (id offset bufLen : Nat) :
    Option (Except BlockError Nat) :=
  match reg.get id with
  | .error e => some (.error e)
  | .ok b =>
    if offset ≥ b.data.length then
      some (.ok 0)
    else
      let len := min bufLen b.data.length
      if b.data.length - offset < len then
        none
      else if bufLen ≠ len then
        none
      else
        some (.ok len)

/-! ## Actor state and the state tree -/

abbrev ActorID := Nat

/-- An actor record (`fvm/src/state_tree.rs`, described in the spec data
model): code identifier, private state root, balance, nonce. -/
structure ActorState where
  code : Cid
  state : Cid
  balance : Nat
  sequence : Nat
deriving DecidableEq, Repr

/-- Modelled from the spec: `ActorState::deduct_funds` subtracts from the
balance, failing when the balance is insufficient (balance stays ≥ 0). -/
def ActorState.deduct_funds (a : ActorState) (amt : Nat) : Option ActorState :=
  if a.balance < amt then none else some { a with balance := a.balance - amt }

/-- Association-list lookup used by the state tree model. -/
def assocFind {α β : Type} [DecidableEq α] : List (α × β) → α → Option β
  | [], _ => none
  | (k, v) :: rest, a => if k = a then some v else assocFind rest a

/-- The snapshot-free content of a state tree: actor records by numeric ID,
the registered address map, and the next fresh numeric ID. -/
structure StateTreeData where
  actors : List (ActorID × ActorState)
  addresses : List (Address × ActorID)
  nextId : Nat
deriving DecidableEq, Repr

/-- Modelled from the spec: the `StateTree` (`fvm/src/state_tree.rs` is not
among the provided sources) — a persistent, snapshot-capable mapping from
actor identifier to actor record.  Snapshots are a stack of saved copies. -/
structure StateTree where
  cur : StateTreeData
  snapshots : List StateTreeData
deriving DecidableEq, Repr

/-- Modelled from the spec: `lookup_id(addr)` returns the address unchanged
when already in numeric-ID form, else consults the registered mapping. -/
def StateTree.lookup_id (st : StateTree) (addr : Address) : Option ActorID :=
  match addr with
  | .id n => some n
  | _ => assocFind st.cur.addresses addr

/-- Modelled from the spec: `get_actor(addr)` resolves the address and
returns the stored actor record, or absent. -/
def StateTree.get_actor (st : StateTree) (addr : Address) : Option ActorState :=
  (st.lookup_id addr).bind fun i => assocFind st.cur.actors i

/-- Modelled from the spec: `set_actor(addr, state)` unconditionally
inserts or overwrites the record of the resolved address. -/
def StateTree.set_actor (st : StateTree) (addr : Address) (a : ActorState) :
    Option StateTree :=
  (st.lookup_id addr).map fun i =>
    { st with cur := { st.cur with actors := (i, a) :: st.cur.actors } }

/-- Modelled from the spec: `register_new_address(addr)` assigns the next
unused numeric ID (returned in address form); fails if already registered. -/
def StateTree.register_new_address (st : StateTree) (addr : Address) :
    Option (Address × StateTree) :=
  match assocFind st.cur.addresses addr with
  | some _ => none
  | none =>
    some (Address.id st.cur.nextId,
      { st with cur := { st.cur with
          addresses := (addr, st.cur.nextId) :: st.cur.addresses,
          nextId := st.cur.nextId + 1 } })

/-- Modelled from the spec: `mutate_actor(addr, f)` loads the current
record, applies `f`, and writes the result; no write occurs if `f` fails. -/
def StateTree.mutate_actor (st : StateTree) (addr : Address)
    (f : ActorState → Option ActorState) : Option StateTree :=
  match st.get_actor addr with
  | none => none
  | some a => (f a).bind fun a' => st.set_actor addr a'

/-- Modelled from the spec: `snapshot()` pushes a checkpoint of the current
value set. -/
def StateTree.snapshot (st : StateTree) : StateTree :=
  { st with snapshots := st.cur :: st.snapshots }

/-- Modelled from the spec: `revert_to_snapshot()` pops the most recent
checkpoint and restores it bit-for-bit. -/
def StateTree.revert_to_snapshot (st : StateTree) : Option StateTree :=
  match st.snapshots with
  | [] => none
  | s :: rest => some { cur := s, snapshots := rest }

/-! ## Gas tracking -/

/-- Modelled from the spec: the `GasTracker` (`fvm/src/gas.rs` is not among
the provided sources) — a prepaid budget with `used ≤ limit`. -/
structure GasTracker where
  gas_limit : Nat
  gas_used : Nat
deriving DecidableEq, Repr

/-- Modelled from the spec: `charge_gas(amount)` fails with OutOfGas when
`used + amount > limit`, leaving `used` unchanged; otherwise adds. -/
def GasTracker.charge_gas (gt : GasTracker) (amount : Nat) : Option GasTracker :=
  if gt.gas_limit < gt.gas_used + amount then none
  else some { gt with gas_used := gt.gas_used + amount }

/-- Modelled from the spec: `gas_available()` returns `limit - used`. -/
def GasTracker.gas_available (gt : GasTracker) : Nat :=
  gt.gas_limit - gt.gas_used

/-! ## Account actor constants -/

/-- `SYSTEM_ACTOR_ADDR`: numeric address 0 of the privileged system sender. -/
def SYSTEM_ACTOR_ADDR : Address := Address.id 0

/-- Modelled from the spec: the content identifier of the empty actor-private
state installed for a freshly created account actor. -/
def EMPTY_STATE_CID : Cid := Cid.newV1 IPLD_RAW (identityHash [])

/-- Modelled from the spec: `account_actor::ZERO_STATE`
(`fvm/src/account_actor.rs` is not among the provided sources) — the built-in
account actor code with zero balance and sequence 0. -/
def ZERO_STATE : ActorState :=
  { code := ACCOUNT_ACTOR_CODE_ID, state := EMPTY_STATE_CID
    balance := 0, sequence := 0 }

/-! ## Machine context and message execution (`machine.rs`) -/

/-- The machine execution context plus the external collaborators the
embedded fragment consumes: the base fee and epoch from `MachineContext`;
the epoch-indexed price list entries `on_chain_message(len).total()` and
`on_create_actor()` (the price list is supplied by the caller per the spec);
the serialized length of a message and the serialization of an address
(the wire encoding is an external interface per the spec); and the message
syntax check `msg.check()` (`fvm/src/message.rs` is not among the provided
sources). -/
structure MachineContext where
  epoch : Nat
  base_fee : Nat
  onChainMessageTotal : Nat → Nat
  onCreateActor : Nat
  serMsgLen : Message → Nat
  serAddr : Address → List Nat
  checkOk : Message → Bool

/-- The ApplyRet built by each of the four sender precondition failure arms
of `execute_message`: empty return data, zero gas used, the given exit code
in the receipt and in the attached actor error, the given penalty, zero tip. -/
def senderFailRet (code : ExitCode) (penalty : Nat) : ApplyRet :=
  { msg_receipt := { exit_code := code, return_data := [], gas_used := 0 }
    act_error := some { fatal := false, exit_code := code }
    penalty := penalty
    miner_tip := 0 }

/-- Outcome of the part of `execute_message` before `CallStack::perform`:
an early `Ok(ApplyRet)` return, an `Err` return (failed syntax check or
failed mutate), or fall-through with the prepared state tree and tracker. -/
inductive Preamble where
  | abort : ApplyRet → Preamble
  | failErr : Preamble
  | proceed : StateTree → GasTracker → Preamble
deriving Repr

/-- `Machine::execute_message` up to and including the two `snapshot()`
calls (machine.rs lines 131-232): syntax check, inclusion-cost
prevalidation, the four sender precondition checks, then the deduction of
the maximal gas cost together with the sequence increment, followed by the
two snapshots and the construction of the gas tracker. -/
def execute_message_preamble (ctx : MachineContext) (st : StateTree)
    (msg : Message) : Preamble :=
  if ctx.checkOk msg = false then .failErr
  else
    let cost_total := ctx.onChainMessageTotal (ctx.serMsgLen msg)
    if msg.gas_limit < cost_total then
      .abort (ApplyRet.prevalidation_fail .sysErrOutOfGas
        (ctx.base_fee * cost_total)
        (some { fatal := false, exit_code := .sysErrOutOfGas }))
    else
      let miner_penalty_amount := ctx.base_fee * msg.gas_limit
      match st.get_actor msg.«from» with
      | none => .abort (senderFailRet .sysErrSenderInvalid miner_penalty_amount)
      | some sender =>
        if is_account_actor sender.code = false then
          .abort (senderFailRet .sysErrSenderInvalid miner_penalty_amount)
        else if msg.sequence ≠ sender.sequence then
          .abort (senderFailRet .sysErrSenderStateInvalid miner_penalty_amount)
        else
          let gas_cost := msg.gas_fee_cap * msg.gas_limit
          if sender.balance < gas_cost then
            .abort (senderFailRet .sysErrSenderStateInvalid miner_penalty_amount)
          else
            match st.mutate_actor msg.«from» (fun act =>
                (act.deduct_funds gas_cost).map fun a =>
                  { a with sequence := a.sequence + 1 }) with
            | none => .failErr
            | some st1 =>
              let st2 := st1.snapshot
              let gas_tracker : GasTracker :=
                { gas_limit := msg.gas_limit, gas_used := cost_total }
              let st3 := st2.snapshot
              .proceed st3 gas_tracker

/-- The fatal actor error produced by `actor_error!(fatal(..))` through
`downcast_fatal` and `map_err`; fatal errors carry no meaningful user-facing
exit code. -/
def fatalActorError : ActorError := { fatal := true, exit_code := .sysErrInternal }

/-- Outcome of `CallStack::call_next`.  The body of the function ends in
`todo!()`, so a completed receipt is never produced; `panicTodo` models
reaching that unimplemented point, carrying the resolved receiver address
and the message as they stand at the panic.  `errNotFound` is the
`Err(anyhow!("actor not found"))` return; `errActor` an error propagated
from `try_create_account_actor`; `outOfFuel` is the artifact of bounding the
recursion depth of the embedding. -/
inductive CallOutcome where
  | okRet : Receipt → CallOutcome
  | errNotFound : Address → CallOutcome
  | errActor : ActorError → CallOutcome
  | panicTodo : Address → Message → CallOutcome
  | outOfFuel : CallOutcome
deriving DecidableEq, Repr

/-- Outcome of `CallStack::try_create_account_actor`. -/
inductive TCOutcome where
  | okCreated : ActorState → Address → TCOutcome
  | errActor : ActorError → TCOutcome
  | panicTodo : Address → Message → TCOutcome
  | outOfFuel : TCOutcome
deriving DecidableEq, Repr

mutual

/-- `CallStack::call_next(msg)` (machine.rs lines 454-491): resolve the
receiver; on an unresolved signable-form address auto-create an account
actor there and rewrite `msg.to`; on any other unresolved form fail with
the actor-not-found error; then fall into the unimplemented dispatch
(`todo!()`), modelled by `panicTodo`. -/
def call_next : Nat → MachineContext → StateTree → GasTracker → Message →
    CallOutcome × StateTree × GasTracker
  | 0, _, st, gt, _ => (.outOfFuel, st, gt)
  | Nat.succ fuel, ctx, st, gt, msg =>
    match st.lookup_id msg.«to» with
    | some receiver => (.panicTodo (Address.id receiver) msg, st, gt)
    | none =>
      match msg.«to».protocol with
      | .blsProto | .secp256k1Proto =>
        match try_create_account_actor fuel ctx st gt msg.«to» with
        | (.okCreated _ id_addr, st', gt') =>
          (.panicTodo id_addr { msg with «to» := id_addr }, st', gt')
        | (.errActor e, st', gt') => (.errActor e, st', gt')
        | (.panicTodo r m, st', gt') => (.panicTodo r m, st', gt')
        | (.outOfFuel, st', gt') => (.outOfFuel, st', gt')
      | _ => (.errNotFound msg.«to», st, gt)

/-- `CallStack::try_create_account_actor(addr)` (machine.rs lines 493-545):
charge the actor-creation gas price; build and immediately DROP an
illegal-argument error when the address is the BLS zero address (the source
lacks the `return Err(..)`, so execution falls through unconditionally —
modelled faithfully, see the comment in the body); register a fresh numeric
ID; install the account actor zero state; synthesize the constructor
message and dispatch it through `call_next`; fetch and return the created
actor record. -/
def try_create_account_actor : Nat → MachineContext → StateTree → GasTracker →
    Address → TCOutcome × StateTree × GasTracker
  | 0, _, st, gt, _ => (.outOfFuel, st, gt)
  | Nat.succ fuel, ctx, st, gt, addr =>
    match gt.charge_gas ctx.onCreateActor with
    | none => (.errActor { fatal := false, exit_code := .sysErrOutOfGas }, st, gt)
    | some gt1 =>
      -- machine.rs line 500-502: `if addr.is_bls_zero_address()` constructs
      -- an ActorError via `actor_error!(SysErrIllegalArgument; ..)` as an
      -- expression statement and drops it; nothing is returned, so the
      -- zero-address check has no effect on the result.
      match st.register_new_address addr with
      | none => (.errActor fatalActorError, st, gt1)
      | some (id_addr, st1) =>
        match st1.set_actor id_addr ZERO_STATE with
        | none => (.errActor fatalActorError, st1, gt1)
        | some st2 =>
          let cmsg : Message :=
            { version := 0
              «from» := SYSTEM_ACTOR_ADDR
              «to» := addr
              sequence := 0
              value := 0
              method_num := METHOD_CONSTRUCTOR
              params := ctx.serAddr addr
              gas_limit := gt1.gas_available
              gas_fee_cap := 0
              gas_premium := 0 }
          match call_next fuel ctx st2 gt1 cmsg with
          | (.okRet _, st3, gt2) =>
            match st3.get_actor id_addr with
            | none => (.errActor fatalActorError, st3, gt2)
            | some act => (.okCreated act id_addr, st3, gt2)
          | (.errNotFound _, st3, gt2) => (.errActor fatalActorError, st3, gt2)
          | (.errActor _, st3, gt2) => (.errActor fatalActorError, st3, gt2)
          | (.panicTodo r m, st3, gt2) => (.panicTodo r m, st3, gt2)
          | (.outOfFuel, st3, gt2) => (.outOfFuel, st3, gt2)

end

/-- Outcome of `Machine::execute_message`: an `Ok(ApplyRet)` return, an
`Err` return, or a panic.  After the preamble the source discards the
result of `CallStack::perform` and unconditionally reaches
`todo!("return the receipt")`, so every post-preamble path panics. -/
inductive ExecOutcome where
  | ret : ApplyRet → ExecOutcome
  | errAnyhow : ExecOutcome
  | panicked : ExecOutcome
  | outOfFuel : ExecOutcome
deriving Repr

/-- `Machine::execute_message(msg, kind)` (machine.rs lines 131-372),
paired with the resulting state tree.  The early returns leave the state
tree untouched; the fall-through case runs `CallStack::perform` (whose
result is discarded by the source) and then panics at the trailing
`todo!()`, with the state as the call stack left it. -/
def execute_message (fuel : Nat) (ctx : MachineContext) (st : StateTree)
    (msg : Message) : ExecOutcome × StateTree :=
  match execute_message_preamble ctx st msg with
  | .abort ret => (.ret ret, st)
  | .failErr => (.errAnyhow, st)
  | .proceed st1 gt =>
    match call_next fuel ctx st1 gt msg with
    | (.outOfFuel, st2, _) => (.outOfFuel, st2)
    | (_, st2, _) => (.panicked, st2)

/-! ## The default kernel (`kernel/default.rs`) -/

/-- The kernel state the embedded operations consume: the owned copy of the
invocation message (with both addresses resolved at construction). -/
structure DefaultKernel where
  invocation_msg : Message
deriving DecidableEq, Repr

/-- `DefaultKernel::create(machine, call_stack, invocation_msg)`: resolves
the `from` and `to` addresses of the bound message to numeric-ID form via
the state tree; fails if either is unresolvable. -/
def DefaultKernel.create (st : StateTree) (msg : Message) : Option DefaultKernel :=
  (st.lookup_id msg.«from»).bind fun fi =>
    (st.lookup_id msg.«to»).map fun ti =>
      { invocation_msg := { msg with «from» := Address.id fi, «to» := Address.id ti } }

/-- `InvocationOps::method_number`. -/
def DefaultKernel.method_number (k : DefaultKernel) : Nat :=
  k.invocation_msg.method_num

/-- `InvocationOps::caller`: the numeric ID of the resolved `from` address;
the `.expect(..)` on a non-ID address is modelled by `none`. -/
def DefaultKernel.caller (k : DefaultKernel) : Option ActorID :=
  match k.invocation_msg.«from» with
  | .id n => some n
  | _ => none

/-- `InvocationOps::receiver`: the numeric ID of the resolved `to` address. -/
def DefaultKernel.receiver (k : DefaultKernel) : Option ActorID :=
  match k.invocation_msg.«to» with
  | .id n => some n
  | _ => none

/-- `InvocationOps::value_received`: the source returns the constant `0`
(a TODO stub; the line returning the message value is commented out). -/
def DefaultKernel.value_received (_ : DefaultKernel) : Nat := 0


/-! ## Concrete fixtures used by witnesses and counterexamples -/

/-- A concrete machine context: base fee 2, inclusion cost `len + 100`,
actor-creation price 3, serialized message length 50, empty address
serialization, always-passing syntax check. -/
def ctxA : MachineContext :=
  { epoch := 0
    base_fee := 2
    onChainMessageTotal := fun n => n + 100
    onCreateActor := 3
    serMsgLen := fun _ => 50
    serAddr := fun _ => []
    checkOk := fun _ => true }

/-- A state tree with no actors, no registered addresses, next ID 100. -/
def emptyTree : StateTree :=
  { cur := { actors := [], addresses := [], nextId := 100 }, snapshots := [] }

/-- A gas tracker with limit 1000 and nothing used. -/
def gtZ : GasTracker := { gas_limit := 1000, gas_used := 0 }

/-- A message whose inclusion cost (150) exceeds its gas limit (10). -/
def msgOverCost : Message :=
  { version := 0, «from» := Address.id 55, «to» := Address.id 56
    sequence := 0, value := 0, method_num := 0, params := []
    gas_limit := 10, gas_fee_cap := 1, gas_premium := 0 }

/-- A message from an address holding no actor, with an ample gas limit. -/
def msgNoSender : Message :=
  { version := 0, «from» := Address.id 55, «to» := Address.id 56
    sequence := 0, value := 0, method_num := 0, params := []
    gas_limit := 1000, gas_fee_cap := 1, gas_premium := 0 }

/-- A funded account-actor sender record: balance 1000, sequence 5. -/
def senderPre : ActorState :=
  { code := ACCOUNT_ACTOR_CODE_ID, state := EMPTY_STATE_CID
    balance := 1000, sequence := 5 }

/-- A state tree holding `senderPre` at numeric ID 100. -/
def treeC2 : StateTree :=
  { cur := { actors := [(100, senderPre)], addresses := [], nextId := 101 }
    snapshots := [] }

/-- A message from the funded sender passing every precondition check:
inclusion cost 150 ≤ gas limit 200, matching sequence 5, maximal gas cost
2 × 200 = 400 ≤ balance 1000. -/
def msgC2 : Message :=
  { version := 0, «from» := Address.id 100, «to» := Address.id 55
    sequence := 5, value := 10, method_num := 0, params := []
    gas_limit := 200, gas_fee_cap := 2, gas_premium := 0 }

/-- Projection onto the fall-through state of the preamble. -/
def proceedState : Preamble → Option StateTree
  | .proceed st _ => some st
  | _ => none

/-- A state tree registering a BLS address at ID 100 and a Secp256k1 address
at ID 200. -/
def kernelTree : StateTree :=
  { cur := { actors := []
             addresses := [(Address.bls (List.replicate 48 1), 100),
                           (Address.secp256k1 [2], 200)]
             nextId := 300 }
    snapshots := [] }

/-- A message between the two registered key addresses carrying value 10
and method number 42. -/
def kernelMsg : Message :=
  { version := 0, «from» := Address.bls (List.replicate 48 1)
    «to» := Address.secp256k1 [2]
    sequence := 3, value := 10, method_num := 42, params := []
    gas_limit := 1000, gas_fee_cap := 1, gas_premium := 0 }

/-- The kernel produced by `DefaultKernel.create` on `kernelTree` and
`kernelMsg`: both addresses resolved to numeric-ID form. -/
def kernelK : DefaultKernel :=
  { invocation_msg := { kernelMsg with «from» := Address.id 100, «to» := Address.id 200 } }

/-- The constructor message synthesized by `try_create_account_actor` for
the BLS zero address under `ctxA`, `emptyTree` and `gtZ`: system sender,
receiver still the key address, gas limit 997 after the creation charge. -/
def zeroAddrConstructorMsg : Message :=
  { version := 0, «from» := SYSTEM_ACTOR_ADDR, «to» := blsZeroAddress
    sequence := 0, value := 0, method_num := METHOD_CONSTRUCTOR, params := []
    gas_limit := 997, gas_fee_cap := 0, gas_premium := 0 }

/-- The state tree `try_create_account_actor` has built when it reaches the
unimplemented dispatch for the BLS zero address: the zero address is
registered at ID 100 and the account actor zero state is installed there. -/
def zeroAddrFinalTree : StateTree :=
  { cur := { actors := [(100, ZERO_STATE)]
             addresses := [(blsZeroAddress, 100)]
             nextId := 101 }
    snapshots := [] }

/-- A fresh (unregistered) BLS key address. -/
def blsFresh : Address := Address.bls (List.replicate 48 1)

/-- A state tree holding an actor at numeric ID 5 and nothing else. -/
def c9Tree : StateTree :=
  { cur := { actors := [(5, ZERO_STATE)], addresses := [], nextId := 100 }
    snapshots := [] }

/-- A message to the numeric-ID receiver 5. -/
def msgTo5 : Message :=
  { version := 0, «from» := Address.id 1, «to» := Address.id 5
    sequence := 0, value := 0, method_num := 7, params := []
    gas_limit := 1000, gas_fee_cap := 0, gas_premium := 0 }

/-- A message to an unregistered actor-form address. -/
def msgToActorForm : Message :=
  { version := 0, «from» := Address.id 1, «to» := Address.actorAddr [9]
    sequence := 0, value := 0, method_num := 7, params := []
    gas_limit := 1000, gas_fee_cap := 0, gas_premium := 0 }

/-- A message to the fresh BLS key address. -/
def msgToFreshBls : Message :=
  { version := 0, «from» := Address.id 1, «to» := blsFresh
    sequence := 0, value := 0, method_num := 7, params := []
    gas_limit := 1000, gas_fee_cap := 0, gas_premium := 0 }

/-- The constructor message synthesized while auto-creating an account
actor at `blsFresh` on `c9Tree` under `ctxA` and `gtZ`. -/
def freshBlsConstructorMsg : Message :=
  { version := 0, «from» := SYSTEM_ACTOR_ADDR, «to» := blsFresh
    sequence := 0, value := 0, method_num := METHOD_CONSTRUCTOR, params := []
    gas_limit := 997, gas_fee_cap := 0, gas_premium := 0 }

/-- The state tree built while auto-creating an account actor at `blsFresh`
on `c9Tree`: the address registered at ID 100, the zero state installed. -/
def freshBlsFinalTree : StateTree :=
  { cur := { actors := [(100, ZERO_STATE), (5, ZERO_STATE)]
             addresses := [(blsFresh, 100)]
             nextId := 101 }
    snapshots := [] }

/-- A registry holding one block: codec `0x71`, payload `[1, 2, 3]`. -/
def regW : BlockRegistry := [{ codec := 0x71, data := [1, 2, 3] }]

/-- A concrete hash function entry: native digest size 32. -/
def hwFn : HashFn :=
  { size := 32, digestBytes := fun _ => List.replicate 32 7 }

/-- A concrete multihash table knowing only function code 18. -/
def mhW : MultihashTable := fun c => if c = 18 then some hwFn else none

/-- The content identifier produced by linking the `[1, 2, 3]` block with
hash function 18 truncated to 10 bytes. -/
def cW : Cid := Cid.newV1 0x71 ((hwFn.digest 18 [1, 2, 3]).truncate 10)

/-! ## Theorems -/

/-- Recombining the high and low 64-bit limbs of any natural number yields
the number back: the limb split used by the syscall token amount is lossless. -/
theorem shiftLimbs_recombine (n : Nat) :
    ((n >>> 64) <<< 64) ||| (n % 2 ^ 64) = n := by
  apply Nat.eq_of_testBit_eq
  intro j
  simp only [Nat.testBit_or, Nat.testBit_shiftLeft, Nat.testBit_shiftRight,
    Nat.testBit_mod_two_pow]
  by_cases h : 64 ≤ j
  · have hj : ¬ j < 64 := by omega
    have : 64 + (j - 64) = j := by omega
    simp [h, hj, this]
  · have hj : j < 64 := by omega
    simp [h, hj]

/-- C10: for every big-integer token amount in `[0, 2 ^ 128)`, the
`TryFrom` split into `{hi := v >>> 64, lo := v % 2 ^ 64}` succeeds and the
`From` conversion `hi <<< 64 ||| lo` maps it back to exactly `v`. -/
theorem sys_token_amount_roundtrip (v : Int) (h0 : 0 ≤ v) (h1 : v < 2 ^ 128) :
    Sys.TokenAmount.tryFromEcon v =
      some { hi := v.toNat >>> 64, lo := v.toNat % 2 ^ 64 } ∧
    Sys.TokenAmount.toEcon { hi := v.toNat >>> 64, lo := v.toNat % 2 ^ 64 } = v := by
  constructor
  · unfold Sys.TokenAmount.tryFromEcon Sys.econTryIntoU128
    rw [if_pos ⟨h0, h1⟩]
    rfl
  · show Int.ofNat _ = v
    rw [shiftLimbs_recombine]
    exact Int.toNat_of_nonneg h0

/-- Witness for C10 at the concrete value `2 ^ 100 + 7`. -/
theorem sys_token_amount_roundtrip_witness :
    Sys.TokenAmount.tryFromEcon (2 ^ 100 + 7) =
      some ⟨((2 ^ 100 + 7 : Int)).toNat % 2 ^ 64, ((2 ^ 100 + 7 : Int)).toNat >>> 64⟩ ∧
    Sys.TokenAmount.toEcon ⟨((2 ^ 100 + 7 : Int)).toNat % 2 ^ 64, ((2 ^ 100 + 7 : Int)).toNat >>> 64⟩ =
      2 ^ 100 + 7 :=
  sys_token_amount_roundtrip (2 ^ 100 + 7) (by decide) (by decide)

/-- C3: `block_read` evaluated at concrete inputs.  Reading past
end-of-data does return `Ok 0` (offset 2, length-2 data), but the copy
length is computed as `min (buf length) (data length)` with the offset
ignored, so reading data `[7, 8]` at offset 1 into a 2-byte buffer panics
(slice out of range, modelled by `none`) where the claim requires
`Ok (min 2 (2 - 1)) = Ok 1`, and reading at offset 0 into a 3-byte buffer
panics in `copy_from_slice` where the claim requires `Ok 2`. -/
theorem block_read_copy_length_bug :
    block_read [{ codec := 0x55, data := [7, 8] }] 0 2 2 = some (.ok 0) ∧
    block_read [{ codec := 0x55, data := [7, 8] }] 0 1 2 = none ∧
    block_read [{ codec := 0x55, data := [7, 8] }] 0 0 3 = none := by decide

/-- C5: the invocation-context operations of a kernel bound to a message
with value 10.  Method number, caller ID and receiver ID are the claimed
read-only projections of the bound message, but `value_received` returns
the constant 0, not the message value. -/
theorem kernel_invocation_context_projections :
    DefaultKernel.create kernelTree kernelMsg = some kernelK ∧
    kernelK.method_number = 42 ∧
    kernelK.caller = some 100 ∧
    kernelK.receiver = some 200 ∧
    kernelMsg.value = 10 ∧
    kernelK.value_received = 0 := by decide

/-- C4: `try_create_account_actor` evaluated at the reserved zero-value BLS
signable address with ample gas.  The illegal-argument rejection never
happens (the constructed error is dropped): the call registers the zero
address under the fresh numeric ID 100, installs the account actor zero
state there, and proceeds into the constructor dispatch until the
unimplemented `todo!()`. -/
theorem try_create_account_actor_zero_address_not_rejected :
    try_create_account_actor 2 ctxA emptyTree gtZ blsZeroAddress =
      (.panicTodo (Address.id 100) zeroAddrConstructorMsg, zeroAddrFinalTree,
        { gas_limit := 1000, gas_used := 3 }) ∧
    blsZeroAddress.is_bls_zero_address = true ∧
    zeroAddrFinalTree.lookup_id blsZeroAddress = some 100 ∧
    zeroAddrFinalTree.get_actor (Address.id 100) = some ZERO_STATE := by decide

/-- C9: `call_next` evaluated on the three receiver-resolution cases.  A
resolved numeric receiver reaches the unimplemented dispatch point
(`todo!()`), so no call is ever performed; an unresolved actor-form address
fails with the actor-not-found error as claimed; an unresolved fresh BLS
address has exactly one account actor registered and installed at the fresh
ID 100, but the constructor dispatch also reaches `todo!()`, so
`try_create_account_actor` never returns and the rewrite of `msg.to` never
executes. -/
theorem call_next_dispatch_unimplemented :
    call_next 1 ctxA c9Tree gtZ msgTo5 =
      (.panicTodo (Address.id 5) msgTo5, c9Tree, gtZ) ∧
    call_next 1 ctxA c9Tree gtZ msgToActorForm =
      (.errNotFound (Address.actorAddr [9]), c9Tree, gtZ) ∧
    call_next 3 ctxA c9Tree gtZ msgToFreshBls =
      (.panicTodo (Address.id 100) freshBlsConstructorMsg, freshBlsFinalTree,
        { gas_limit := 1000, gas_used := 3 }) ∧
    freshBlsFinalTree.lookup_id blsFresh = some 100 ∧
    freshBlsFinalTree.get_actor (Address.id 100) = some ZERO_STATE := by decide

/-- C2 counterexample: on a message passing every precondition check, the
preamble falls through, yet reverting the snapshot yields the sender with
balance 600 and sequence 6 — the post-deduction values — and not the
pre-deduction record (balance 1000, sequence 5): the snapshot is taken
after the deduction and the increment, so reverting it does not restore
them, refuting the claim at this input. -/
theorem snapshot_scope_counterexample :
    ((proceedState (execute_message_preamble ctxA treeC2 msgC2)).bind
        StateTree.revert_to_snapshot).bind
      (fun t => t.get_actor (Address.id 100)) =
      some { code := ACCOUNT_ACTOR_CODE_ID, state := EMPTY_STATE_CID
             balance := 600, sequence := 6 } ∧
    treeC2.get_actor (Address.id 100) =
      some { code := ACCOUNT_ACTOR_CODE_ID, state := EMPTY_STATE_CID
             balance := 1000, sequence := 5 } ∧
    ¬ ((proceedState (execute_message_preamble ctxA treeC2 msgC2)).bind
        StateTree.revert_to_snapshot).bind
      (fun t => t.get_actor (Address.id 100)) =
      treeC2.get_actor (Address.id 100) := by decide

/-- C6: for every message passing the syntax check whose on-chain inclusion
cost exceeds its gas limit, `execute_message` returns the prevalidation
ApplyRet with the out-of-gas exit code and zero gas used and leaves the
state tree exactly as it was. -/
theorem execute_message_prevalidation_out_of_gas
    (fuel : Nat) (ctx : MachineContext) (st : StateTree) (msg : Message)
    (hchk : ctx.checkOk msg = true)
    (hcost : msg.gas_limit < ctx.onChainMessageTotal (ctx.serMsgLen msg)) :
    execute_message fuel ctx st msg =
      (.ret (ApplyRet.prevalidation_fail .sysErrOutOfGas
        (ctx.base_fee * ctx.onChainMessageTotal (ctx.serMsgLen msg))
        (some { fatal := false, exit_code := .sysErrOutOfGas })), st) ∧
    (ApplyRet.prevalidation_fail .sysErrOutOfGas
        (ctx.base_fee * ctx.onChainMessageTotal (ctx.serMsgLen msg))
        (some { fatal := false, exit_code := .sysErrOutOfGas })).msg_receipt.gas_used
      = 0 := by
  constructor
  · simp [execute_message, execute_message_preamble, hchk, hcost]
  · rfl

/-- Witness for C6 at the over-cost fixture message. -/
theorem execute_message_prevalidation_out_of_gas_witness :
    execute_message 1 ctxA emptyTree msgOverCost =
      (.ret (ApplyRet.prevalidation_fail .sysErrOutOfGas
        (ctxA.base_fee * ctxA.onChainMessageTotal (ctxA.serMsgLen msgOverCost))
        (some { fatal := false, exit_code := .sysErrOutOfGas })), emptyTree) ∧
    (ApplyRet.prevalidation_fail .sysErrOutOfGas
        (ctxA.base_fee * ctxA.onChainMessageTotal (ctxA.serMsgLen msgOverCost))
        (some { fatal := false, exit_code := .sysErrOutOfGas })).msg_receipt.gas_used
      = 0 :=
  execute_message_prevalidation_out_of_gas 1 ctxA emptyTree msgOverCost rfl (by decide)

/-- C1: for every message passing the syntax check and the inclusion-cost
prevalidation, each of the four sender precondition failures — sender
missing, sender not an account actor, mismatched sequence, balance below
`gas_fee_cap × gas_limit` — makes `execute_message` return `Ok` with the
ApplyRet carrying penalty `base_fee × gas_limit`, zero gas used, empty
return data, the sender-invalid exit code for the first two cases and the
sender-state-invalid exit code for the last two, and leaves the state tree
exactly as it was (in particular the sender record is unchanged). -/
theorem execute_message_sender_check_failures
    (fuel : Nat) (ctx : MachineContext) (st : StateTree) (msg : Message)
    (hchk : ctx.checkOk msg = true)
    (hcost : ¬ msg.gas_limit < ctx.onChainMessageTotal (ctx.serMsgLen msg)) :
    (st.get_actor msg.«from» = none →
      execute_message fuel ctx st msg =
        (.ret (senderFailRet .sysErrSenderInvalid (ctx.base_fee * msg.gas_limit)),
          st)) ∧
    (∀ sender, st.get_actor msg.«from» = some sender →
      is_account_actor sender.code = false →
      execute_message fuel ctx st msg =
        (.ret (senderFailRet .sysErrSenderInvalid (ctx.base_fee * msg.gas_limit)),
          st)) ∧
    (∀ sender, st.get_actor msg.«from» = some sender →
      is_account_actor sender.code = true →
      msg.sequence ≠ sender.sequence →
      execute_message fuel ctx st msg =
        (.ret (senderFailRet .sysErrSenderStateInvalid
          (ctx.base_fee * msg.gas_limit)), st)) ∧
    (∀ sender, st.get_actor msg.«from» = some sender →
      is_account_actor sender.code = true →
      msg.sequence = sender.sequence →
      sender.balance < msg.gas_fee_cap * msg.gas_limit →
      execute_message fuel ctx st msg =
        (.ret (senderFailRet .sysErrSenderStateInvalid
          (ctx.base_fee * msg.gas_limit)), st)) := by
  refine ⟨?_, ?_, ?_, ?_⟩
  · intro hs
    simp [execute_message, execute_message_preamble, hchk, hcost, hs]
  · intro sender hs hacct
    simp [execute_message, execute_message_preamble, hchk, hcost, hs, hacct]
  · intro sender hs hacct hseq
    simp [execute_message, execute_message_preamble, hchk, hcost, hs, hacct, hseq]
  · intro sender hs hacct hseq hbal
    simp [execute_message, execute_message_preamble, hchk, hcost, hs, hacct,
      hseq, hbal]

/-- Witness for C1 at the fixture message whose sender does not exist. -/
theorem execute_message_sender_check_failures_witness :
    execute_message 1 ctxA emptyTree msgNoSender =
      (.ret (senderFailRet .sysErrSenderInvalid
        (ctxA.base_fee * msgNoSender.gas_limit)), emptyTree) :=
  (execute_message_sender_check_failures 1 ctxA emptyTree msgNoSender rfl
    (by decide)).1 rfl

/-- A resolved `get_actor` yields a resolved numeric ID and a hit in the
actor table. -/
theorem get_actor_some_lookup {st : StateTree} {a : Address} {s : ActorState}
    (h : st.get_actor a = some s) :
    ∃ i, st.lookup_id a = some i ∧ assocFind st.cur.actors i = some s := by
  unfold StateTree.get_actor at h
  cases hl : st.lookup_id a with
  | none => rw [hl] at h; simp at h
  | some i => rw [hl] at h; simp at h; exact ⟨i, rfl, h⟩

/-- `lookup_id` only reads the registered address map. -/
theorem lookup_id_addresses_eq {st st' : StateTree}
    (h : st'.cur.addresses = st.cur.addresses) (a : Address) :
    st'.lookup_id a = st.lookup_id a := by
  cases a <;> simp [StateTree.lookup_id, h]

/-- C2 amended: for every message passing all precondition checks, the
preamble falls through having deducted the maximal gas cost and incremented
the sender sequence BEFORE taking the snapshots, so reverting the snapshot
still shows the post-deduction balance and the incremented sequence: the
two mutations lie outside the snapshot scope. -/
theorem execute_message_deducts_before_snapshot
    (ctx : MachineContext) (st : StateTree) (msg : Message) (sender : ActorState)
    (hchk : ctx.checkOk msg = true)
    (hcost : ¬ msg.gas_limit < ctx.onChainMessageTotal (ctx.serMsgLen msg))
    (hsender : st.get_actor msg.«from» = some sender)
    (hacct : is_account_actor sender.code = true)
    (hseq : msg.sequence = sender.sequence)
    (hbal : ¬ sender.balance < msg.gas_fee_cap * msg.gas_limit) :
    ∃ stp, execute_message_preamble ctx st msg =
        .proceed stp { gas_limit := msg.gas_limit
                       gas_used := ctx.onChainMessageTotal (ctx.serMsgLen msg) } ∧
      stp.get_actor msg.«from» =
        some { sender with
                balance := sender.balance - msg.gas_fee_cap * msg.gas_limit
                sequence := sender.sequence + 1 } ∧
      ∃ str, stp.revert_to_snapshot = some str ∧
        str.get_actor msg.«from» =
          some { sender with
                  balance := sender.balance - msg.gas_fee_cap * msg.gas_limit
                  sequence := sender.sequence + 1 } := by
  obtain ⟨i, hl, hf⟩ := get_actor_some_lookup hsender
  have hded : sender.deduct_funds (msg.gas_fee_cap * msg.gas_limit) =
      some { sender with
              balance := sender.balance - msg.gas_fee_cap * msg.gas_limit } := by
    unfold ActorState.deduct_funds
    rw [if_neg hbal]
  have hmut : st.mutate_actor msg.«from» (fun act =>
      (act.deduct_funds (msg.gas_fee_cap * msg.gas_limit)).map fun a =>
        { a with sequence := a.sequence + 1 }) =
      some { st with cur := { st.cur with actors :=
        (i, { sender with
               balance := sender.balance - msg.gas_fee_cap * msg.gas_limit
               sequence := sender.sequence + 1 }) :: st.cur.actors } } := by
    unfold StateTree.mutate_actor
    rw [hsender]
    simp [hded, StateTree.set_actor, hl]
  have hga : ∀ tr : StateTree,
      tr.cur.addresses = st.cur.addresses →
      tr.cur.actors = (i, { sender with
          balance := sender.balance - msg.gas_fee_cap * msg.gas_limit
          sequence := sender.sequence + 1 }) :: st.cur.actors →
      tr.get_actor msg.«from» = some { sender with
          balance := sender.balance - msg.gas_fee_cap * msg.gas_limit
          sequence := sender.sequence + 1 } := by
    intro tr haddr hact
    unfold StateTree.get_actor
    rw [lookup_id_addresses_eq haddr, hl]
    simp [hact, assocFind]
  refine ⟨StateTree.snapshot (StateTree.snapshot { st with cur := { st.cur with
      actors := (i, { sender with
        balance := sender.balance - msg.gas_fee_cap * msg.gas_limit
        sequence := sender.sequence + 1 }) :: st.cur.actors } }),
    ?_, ?_, _, rfl, ?_⟩
  · simp [execute_message_preamble, hchk, hcost, hsender, hacct, hseq, hbal, hmut]
  · exact hga _ rfl rfl
  · exact hga _ rfl rfl

/-- Witness for the amended C2 at the funded-sender fixture. -/
theorem execute_message_deducts_before_snapshot_witness :
    ∃ stp, execute_message_preamble ctxA treeC2 msgC2 =
        .proceed stp { gas_limit := msgC2.gas_limit
                       gas_used := ctxA.onChainMessageTotal (ctxA.serMsgLen msgC2) } ∧
      stp.get_actor msgC2.«from» =
        some { senderPre with
                balance := senderPre.balance - msgC2.gas_fee_cap * msgC2.gas_limit
                sequence := senderPre.sequence + 1 } ∧
      ∃ str, stp.revert_to_snapshot = some str ∧
        str.get_actor msgC2.«from» =
          some { senderPre with
                  balance := senderPre.balance - msgC2.gas_fee_cap * msgC2.gas_limit
                  sequence := senderPre.sequence + 1 } :=
  execute_message_deducts_before_snapshot ctxA treeC2 msgC2 senderPre rfl
    (by decide) (by decide) (by decide) (by decide) (by decide)

/-- A block-store fetch after a put of the same identifier returns the
stored bytes. -/
theorem getBlock_putBlock (bs : Blockstore) (k : Cid) (d : List Nat) :
    (bs.putBlock k d).getBlock k = some d := by
  simp [Blockstore.putBlock, Blockstore.getBlock]

/-- Fetching the handle returned by a registry put yields the put block. -/
theorem registry_get_append (reg : BlockRegistry) (b : Block) :
    BlockRegistry.get (reg ++ [b]) reg.length = .ok b := by
  unfold BlockRegistry.get
  simp [List.getElem?_concat_length]

/-- The fixture multihash table only carries digest sizes of at most 64
bytes, like the `multihash` crate code table. -/
theorem mhW_size_bound : ∀ c f, mhW c = some f → f.size ≤ 64 := by
  intro c f h
  unfold mhW at h
  by_cases hc : c = 18
  · rw [if_pos hc] at h
    cases h
    decide
  · rw [if_neg hc] at h
    cases h

/-- C7: for every registered block handle, under a multihash table whose
digest sizes are bounded by 64 bytes (as in the `multihash` crate),
`block_link` fails with InvalidMultihashSpec exactly when the hash function
is unknown or the requested length exceeds the native digest size; in every
other case it returns the content identifier built from the block codec and
the digest truncated to the requested length, having written the block
bytes to the block store under that identifier. -/
theorem block_link_multihash_spec
    (mh : MultihashTable) (bs : Blockstore) (reg : BlockRegistry)
    (id hash_fun hash_len : Nat) (b : Block)
    (hreg : reg.get id = .ok b)
    (hbound : ∀ c f, mh c = some f → f.size ≤ 64) :
    (block_link mh bs reg id hash_fun hash_len =
        .error (.invalidMultihashSpec hash_fun hash_len) ↔
      mh hash_fun = none ∨ ∃ f, mh hash_fun = some f ∧ f.size < hash_len) ∧
    ∀ f, mh hash_fun = some f → hash_len ≤ f.size →
      block_link mh bs reg id hash_fun hash_len =
        .ok (Cid.newV1 b.codec ((f.digest hash_fun b.data).truncate hash_len),
          bs.putBlock
            (Cid.newV1 b.codec ((f.digest hash_fun b.data).truncate hash_len))
            b.data) ∧
      (bs.putBlock
          (Cid.newV1 b.codec ((f.digest hash_fun b.data).truncate hash_len))
          b.data).getBlock
        (Cid.newV1 b.codec ((f.digest hash_fun b.data).truncate hash_len)) =
        some b.data := by
  cases hmh : mh hash_fun with
  | none =>
    constructor
    · simp [block_link, hreg, hmh]
    · intro f hf
      cases hf
  | some f =>
    have hsize : f.size ≤ 64 := hbound _ _ hmh
    constructor
    · by_cases hlt : f.size < hash_len
      · constructor
        · intro _
          exact Or.inr ⟨f, rfl, hlt⟩
        · intro _
          simp [block_link, hreg, hmh, HashFn.digest, hlt]
      · constructor
        · intro h
          exfalso
          revert h
          simp [block_link, hreg, hmh, HashFn.digest, hlt]
        · intro h
          rcases h with h | ⟨f', hf', hlt'⟩
          · cases h
          · cases hf'
            exact absurd hlt' hlt
    · intro f' hf' hle
      cases hf'
      have hnot : ¬ f.size < hash_len := by omega
      have hmod : hash_len % 256 = hash_len := Nat.mod_eq_of_lt (by omega)
      constructor
      · simp [block_link, hreg, hmh, HashFn.digest, hnot, hmod,
          Multihash.truncate]
      · exact getBlock_putBlock bs _ b.data

/-- Witness for C7: linking the registered `[1, 2, 3]` block with known
function 18 and length 10 succeeds with the truncated-digest identifier and
stores the bytes under it. -/
theorem block_link_multihash_spec_witness :
    block_link mhW [] regW 0 18 10 =
      .ok (Cid.newV1 0x71 ((hwFn.digest 18 [1, 2, 3]).truncate 10),
        Blockstore.putBlock []
          (Cid.newV1 0x71 ((hwFn.digest 18 [1, 2, 3]).truncate 10)) [1, 2, 3]) ∧
    (Blockstore.putBlock []
        (Cid.newV1 0x71 ((hwFn.digest 18 [1, 2, 3]).truncate 10)) [1, 2, 3]).getBlock
      (Cid.newV1 0x71 ((hwFn.digest 18 [1, 2, 3]).truncate 10)) = some [1, 2, 3] :=
  (block_link_multihash_spec mhW [] regW 0 18 10 { codec := 0x71, data := [1, 2, 3] }
    rfl mhW_size_bound).2 hwFn rfl (by decide)

/-- C8: whenever `block_create(codec, data)` registers a block and
`block_link` on the returned handle succeeds with identifier `k` and
updated store `bs'`, fetching `k` from `bs'` returns exactly `data`. -/
theorem block_create_link_fetch_roundtrip
    (mh : MultihashTable) (bs : Blockstore) (reg : BlockRegistry)
    (codec : Nat) (data : List Nat) (hash_fun hash_len : Nat)
    (k : Cid) (bs' : Blockstore)
    (hlink : block_link mh bs (block_create reg codec data).1
        (block_create reg codec data).2 hash_fun hash_len = .ok (k, bs')) :
    bs'.getBlock k = some data := by
  have hget : BlockRegistry.get (block_create reg codec data).1
      (block_create reg codec data).2 = .ok { codec := codec, data := data } := by
    unfold block_create BlockRegistry.put
    exact registry_get_append reg _
  cases hmh : mh hash_fun with
  | none =>
    simp [block_link, hget, hmh] at hlink
  | some f =>
    simp only [block_link, hget, hmh] at hlink
    split at hlink
    · cases hlink
    · rw [Except.ok.injEq, Prod.mk.injEq] at hlink
      obtain ⟨hk, hbs⟩ := hlink
      subst hk
      subst hbs
      exact getBlock_putBlock bs _ data

/-- Witness for C8 at the concrete create-link-fetch run. -/
theorem block_create_link_fetch_roundtrip_witness :
    Blockstore.getBlock (Blockstore.putBlock [] cW [1, 2, 3]) cW =
      some [1, 2, 3] :=
  block_create_link_fetch_roundtrip mhW [] [] 0x71 [1, 2, 3] 18 10 cW
    (Blockstore.putBlock [] cW [1, 2, 3]) (by decide)
